import Mathlib

/-!
Shallow embedding of `src/nasa_lsp/analyzer.py` (the NASA-LSP rule engine)
and proofs about the claims of its specification.

The analyzer consumes a Python abstract syntax tree (produced by the external
parser collaborator `ast.parse`) together with the raw source text, and emits
positioned diagnostics for five rules: NASA01-A (forbidden call), NASA01-B
(direct recursion), NASA02 (`while True`), NASA04 (function length) and
NASA05 (minimum assertion count).

Modelling decisions:
  * The parser is an external collaborator, so `analyze` takes the parse
    result as an explicit `Option Node` argument (`none` models a
    `SyntaxError` raised by `ast.parse`).
  * Python exceptions escaping `analyze` are modelled with `Except`:
    the only statement that can raise for a parsed input is `assert text`
    at the top of `analyze`, which fails exactly when `text` is falsy,
    i.e. the empty string.
  * The syntax tree is a closed inductive type covering the node kinds the
    analyzer distinguishes (`ast.FunctionDef`, `ast.AsyncFunctionDef`,
    `ast.ClassDef`, `ast.Call`, `ast.Name`, `ast.Attribute`, `ast.While`,
    `ast.For`, `ast.Constant`, `ast.Assert`, `ast.Lambda`); every other
    statement or expression kind is `Node.other` carrying its child list in
    source order.  `ast.AsyncFunctionDef` is `functionDef` with
    `isAsync := true`, matching the shared `_check_function` code path.
  * `ast.walk` enumerates a node and all its descendants; the analyzer only
    uses it to count matches of a predicate, so node order is irrelevant and
    it is embedded as the counter `walkCount`.
  * Machine integers: all line/column numbers are natural numbers (CPython
    ints; no overflow concerns at these magnitudes, and all values produced
    by the parser are non-negative).
  * `str.splitlines` and `str.find` are embedded for the `'\n'` line
    separator and non-empty needle used by the analyzer; `str.isspace` is
    embedded for the ASCII whitespace characters.
-/

namespace NasaLsp

/-- `Position` dataclass: zero-based line/character. -/
structure Position where
  line : Nat
  character : Nat
deriving DecidableEq, Repr

/-- `Range` dataclass.  The Python field `end` is a Lean keyword, so it is
named `endPos` here. -/
structure Range where
  start : Position
  endPos : Position
deriving DecidableEq, Repr

/-- `Diagnostic` dataclass. -/
structure Diagnostic where
  range : Range
  message : String
  code : String
deriving DecidableEq, Repr

/-- Position metadata carried by every AST node used by the analyzer:
`lineno` / `end_lineno` are 1-based, `col_offset` / `end_col_offset`
are 0-based. -/
structure Loc where
  lineno : Nat
  col_offset : Nat
  end_lineno : Nat
  end_col_offset : Nat
deriving DecidableEq, Repr

/-- The syntax tree produced by the parser collaborator, restricted to the
node kinds the analyzer distinguishes.  Child lists are kept in the order
`ast.iter_child_nodes` yields them (field order of the CPython AST). -/
inductive Node where
  | module (body : List Node)
  | functionDef (loc : Loc) (fname : String) (isAsync : Bool)
      (args : List Node) (body : List Node) (decorators : List Node)
  | classDef (loc : Loc) (cname : String) (children : List Node)
  | callE (loc : Loc) (func : Node) (args : List Node)
  | nameE (loc : Loc) (id : String)
  | attributeE (loc : Loc) (value : Node) (attr : String)
  | whileE (loc : Loc) (test : Node) (body : List Node) (orelse : List Node)
  | forE (loc : Loc) (target : Node) (iter : Node) (body : List Node) (orelse : List Node)
  | boolConst (loc : Loc) (value : Bool)
  | otherConst (loc : Loc)
  | assertE (loc : Loc) (children : List Node)
  | lambdaE (loc : Loc) (args : List Node) (body : Node)
  | other (loc : Loc) (children : List Node)
deriving Repr

/-- `NasaVisitor._pos`: raw (1-based line, 0-based column) to `Position`. -/
def pyPos (lineno col : Nat) : Position :=
  { line := lineno - 1, character := col }

/-- `NasaVisitor._range_for_node`. -/
def rangeForNode (loc : Loc) : Range :=
  { start := pyPos loc.lineno loc.col_offset
    endPos := pyPos loc.end_lineno loc.end_col_offset }

/-- `str.isspace` on a single character, for the ASCII whitespace characters
(space, tab, linefeed, carriage return, vertical tab, form feed); these are
the only whitespace characters that can occur inside a source line here. -/
def pyIsSpace (c : Char) : Bool :=
  c = ' ' || c = '\t' || c = '\n' || c = '\r' || c = '\x0b' || c = '\x0c'

/-- Scanner behind `str.find(sub, start)`: first index at or after `idx`
where `sub` occurs in `hay`, for a non-empty `sub`. -/
def subFindAux (hay sub : List Char) (idx : Nat) : Option Nat :=
  match hay with
  | [] => none
  | _ :: rest =>
    if sub.isPrefixOf hay then some idx else subFindAux rest sub (idx + 1)

/-- `s.find(sub, start)` (for the non-empty needles used by the analyzer),
returning `none` for Python's `-1`. -/
def strFind (s sub : String) (start : Nat) : Option Nat :=
  subFindAux (s.toList.drop start) sub.toList start

/-- The `while name_start < len(line_text) and line_text[name_start].isspace()`
loop of `_range_for_func_name`: `cs` is the suffix of the line starting at
index `i`; returns the index of the first non-whitespace position. -/
def skipWsFrom (cs : List Char) (i : Nat) : Nat :=
  match cs with
  | [] => i
  | c :: rest => if pyIsSpace c then skipWsFrom rest (i + 1) else i

/-- `str.splitlines` for text whose line breaks are `'\n'` (the analyzer
splits the document once; universal-newline variants are irrelevant to the
claims).  No trailing empty line is produced, and `"" → []`. -/
def splitlinesAux (acc : List Char) : List Char → List String
  | [] => if acc.isEmpty then [] else [String.mk acc.reverse]
  | c :: rest =>
    if c = '\n' then String.mk acc.reverse :: splitlinesAux [] rest
    else splitlinesAux (c :: acc) rest

/-- `text.splitlines()`. -/
def pySplitlines (s : String) : List String :=
  splitlinesAux [] s.toList

/-- `NasaVisitor._range_for_func_name`. -/
def rangeForFuncName (lines : List String) (loc : Loc) (fname : String)
    (isAsync : Bool) : Range :=
  let lineno := loc.lineno
  let col := loc.col_offset
  if 1 ≤ lineno ∧ lineno - 1 < lines.length then
    let lineText := lines.getD (lineno - 1) ""
    let defKw : String := if isAsync then "async def" else "def"
    match strFind lineText defKw col with
    | none =>
      { start := pyPos lineno col, endPos := pyPos lineno (col + fname.length) }
    | some idx =>
      let nameStart :=
        skipWsFrom (lineText.toList.drop (idx + defKw.length)) (idx + defKw.length)
      { start := pyPos lineno nameStart
        endPos := pyPos lineno (nameStart + fname.length) }
  else
    rangeForNode loc

/-! Counter form of the `for sub_node in ast.walk(stmt)` loops used by
`_check_function`, generalized by a stop predicate: nodes satisfying `stop`
are not entered (and not counted).  With `stop := fun _ => false` this is an
exact embedding of counting `p`-matches over `ast.walk`; the analyzer itself
never stops descent inside `ast.walk`, but the stop parameter also lets the
specification's own notion of "direct scope" be expressed for comparison. -/
mutual

/-- Count of `p`-matches over the descent from `n`, not entering (or
counting) nodes satisfying `stop`. -/
def scopedCount (stop p : Node → Bool) (n : Node) : Nat :=
  if stop n then 0
  else
    (if p n then 1 else 0) +
    match n with
    | .module body => scopedCountList stop p body
    | .functionDef _ _ _ args body dec =>
        scopedCountList stop p args + scopedCountList stop p body +
          scopedCountList stop p dec
    | .classDef _ _ cs => scopedCountList stop p cs
    | .callE _ f args => scopedCount stop p f + scopedCountList stop p args
    | .nameE _ _ => 0
    | .attributeE _ v _ => scopedCount stop p v
    | .whileE _ t b o =>
        scopedCount stop p t + scopedCountList stop p b + scopedCountList stop p o
    | .forE _ tg it b o =>
        scopedCount stop p tg + scopedCount stop p it +
          scopedCountList stop p b + scopedCountList stop p o
    | .boolConst _ _ => 0
    | .otherConst _ => 0
    | .assertE _ cs => scopedCountList stop p cs
    | .lambdaE _ args b => scopedCountList stop p args + scopedCount stop p b
    | .other _ cs => scopedCountList stop p cs

def scopedCountList (stop p : Node → Bool) (ns : List Node) : Nat :=
  match ns with
  | [] => 0
  | n :: rest => scopedCount stop p n + scopedCountList stop p rest

end

/-- Count of `p`-matches over `ast.walk(n)` (the node and all descendants). -/
def walkCount (p : Node → Bool) (n : Node) : Nat :=
  scopedCount (fun _ => false) p n

/-- `isinstance(stmt, (ast.FunctionDef, ast.AsyncFunctionDef, ast.ClassDef))`. -/
def isDefOrClass : Node → Bool
  | .functionDef .. => true
  | .classDef .. => true
  | _ => false

/-- `isinstance(sub_node, ast.Call) and isinstance(sub_node.func, ast.Name)
and sub_node.func.id == func_name`. -/
def isSelfCall (fname : String) : Node → Bool
  | .callE _ (.nameE _ id) _ => id = fname
  | _ => false

/-- `isinstance(sub_node, ast.Assert)`. -/
def isAssertNode : Node → Bool
  | .assertE _ _ => true
  | _ => false

/-- The scan shared by the NASA01-B and NASA05 rules in `_check_function`:
walk each direct-child statement of the function body, but skip statements
that are themselves function/class definitions, and count `p`-matches over
`ast.walk` of the remaining statements (which does descend into definitions
nested deeper inside compound statements). -/
def bodyScanCount (p : Node → Bool) (body : List Node) : Nat :=
  match body with
  | [] => 0
  | stmt :: rest =>
      (if isDefOrClass stmt then 0 else walkCount p stmt) + bodyScanCount p rest

/-- The `calls_self` flag of `_check_function` (the Python loop breaks early;
the resulting boolean is existence of a match). -/
def callsSelf (fname : String) (body : List Node) : Bool :=
  bodyScanCount (isSelfCall fname) body ≠ 0

/-- The forbidden-call set of `visit_Call`. -/
def forbiddenNames : List String :=
  ["eval", "exec", "compile", "globals", "locals", "__import__", "setattr", "getattr"]

/-- Name resolution of `visit_Call`: a bare `ast.Name` target yields its
identifier, an `ast.Attribute` target yields the attribute name; both use the
target node itself for the diagnostic range.  Any other shape is unchecked. -/
def callTargetName : Node → Option (String × Loc)
  | .nameE loc id => some (id, loc)
  | .attributeE loc _ attr => some (attr, loc)
  | _ => none

/-- The diagnostic block `visit_Call` appends for a call with target `f`. -/
def checkCall (f : Node) : List Diagnostic :=
  match callTargetName f with
  | some (nm, loc) =>
    if nm ∈ forbiddenNames then
      [{ range := rangeForNode loc
         message := "Call to forbidden API '" ++ nm ++ "' (NASA01: restricted subset)"
         code := "NASA01-A" }]
    else []
  | none => []

/-- The diagnostic block `visit_While` appends: fires exactly when the test
is a literal constant that `is True`. -/
def checkWhile (loc : Loc) (test : Node) : List Diagnostic :=
  match test with
  | .boolConst _ true =>
    [{ range := rangeForNode loc
       message := "Unbounded loop 'while True' (NASA02: loops must be bounded)"
       code := "NASA02" }]
  | _ => []

/-- `NasaVisitor._check_function`: the three function-level diagnostic
blocks, in emission order NASA01-B, NASA04, NASA05. -/
def checkFunction (lines : List String) (loc : Loc) (fname : String)
    (isAsync : Bool) (body : List Node) : List Diagnostic :=
  let r := rangeForFuncName lines loc fname isAsync
  (if callsSelf fname body then
    [{ range := r
       message := "Recursive call to '" ++ fname ++ "' (NASA01: no recursion)"
       code := "NASA01-B" }]
   else []) ++
  (if loc.end_lineno - loc.lineno ≥ 60 then
    [{ range := r
       message := "Function '" ++ fname ++ "' longer than 60 lines (NASA04: No function longer than 60 lines)"
       code := "NASA04" }]
   else []) ++
  (let assertCount := bodyScanCount isAssertNode body
   if assertCount < 2 then
    [{ range := r
       message := "Function '" ++ fname ++ "' has only " ++ toString assertCount ++
         " assert(s); expected at least 2 asserts (NASA05: use assertions to detect impossible conditions)"
       code := "NASA05" }]
   else [])

/-! The visitor traversal with the mutable `self.diagnostics` sink made
explicit as an accumulator: `visitAcc lines acc n` is the sink contents
after visiting `n` starting from sink contents `acc`.  Dispatch follows
`ast.NodeVisitor.visit`: `visit_Call`, `visit_While`, `visit_FunctionDef`
and `visit_AsyncFunctionDef` append their diagnostics and then
`generic_visit` recurses into all children in field order. -/
mutual

def visitAcc (lines : List String) (acc : List Diagnostic) : Node → List Diagnostic
  | .module body => visitListAcc lines acc body
  | .functionDef loc nm isA args body dec =>
      visitListAcc lines
        (visitListAcc lines
          (visitListAcc lines (acc ++ checkFunction lines loc nm isA body) args)
          body)
        dec
  | .classDef _ _ cs => visitListAcc lines acc cs
  | .callE _ f args => visitListAcc lines (visitAcc lines (acc ++ checkCall f) f) args
  | .nameE _ _ => acc
  | .attributeE _ v _ => visitAcc lines acc v
  | .whileE loc t b o =>
      visitListAcc lines
        (visitListAcc lines (visitAcc lines (acc ++ checkWhile loc t) t) b) o
  | .forE _ tg it b o =>
      visitListAcc lines
        (visitListAcc lines (visitAcc lines (visitAcc lines acc tg) it) b) o
  | .boolConst _ _ => acc
  | .otherConst _ => acc
  | .assertE _ cs => visitListAcc lines acc cs
  | .lambdaE _ args b => visitAcc lines (visitListAcc lines acc args) b
  | .other _ cs => visitListAcc lines acc cs

def visitListAcc (lines : List String) (acc : List Diagnostic) : List Node → List Diagnostic
  | [] => acc
  | n :: ns => visitListAcc lines (visitAcc lines acc n) ns

end

/-! Declarative pre-order form of the traversal: the diagnostics of a node
are its own rule blocks followed by the diagnostics of its children in
order.  `visitAcc_eq` below proves this is exactly what the accumulator
traversal computes. -/
mutual

def visitPre (lines : List String) : Node → List Diagnostic
  | .module body => visitListPre lines body
  | .functionDef loc nm isA args body dec =>
      checkFunction lines loc nm isA body ++
        (visitListPre lines args ++ visitListPre lines body ++ visitListPre lines dec)
  | .classDef _ _ cs => visitListPre lines cs
  | .callE _ f args => checkCall f ++ (visitPre lines f ++ visitListPre lines args)
  | .nameE _ _ => []
  | .attributeE _ v _ => visitPre lines v
  | .whileE loc t b o =>
      checkWhile loc t ++ (visitPre lines t ++ visitListPre lines b ++ visitListPre lines o)
  | .forE _ tg it b o =>
      visitPre lines tg ++ visitPre lines it ++ visitListPre lines b ++ visitListPre lines o
  | .boolConst _ _ => []
  | .otherConst _ => []
  | .assertE _ cs => visitListPre lines cs
  | .lambdaE _ args b => visitListPre lines args ++ visitPre lines b
  | .other _ cs => visitListPre lines cs

def visitListPre (lines : List String) : List Node → List Diagnostic
  | [] => []
  | n :: ns => visitPre lines n ++ visitListPre lines ns

end

/-- Python exceptions that can escape `analyze`. -/
inductive PyException where
  | assertionError
deriving DecidableEq, Repr

/-- `analyze(text)`.  The parse result of the external `ast.parse`
collaborator is passed explicitly (`none` models a `SyntaxError`, which the
`try/except` turns into `[]`).  `assert text` fails — raising
`AssertionError` — exactly when `text` is the empty string; it runs before
the parse attempt. -/
def analyze (text : String) (parsed : Option Node) : Except PyException (List Diagnostic) :=
  if text = "" then Except.error PyException.assertionError
  else
    match parsed with
    | none => Except.ok []
    | some tree => Except.ok (visitAcc (pySplitlines text) [] tree)

/-- Number of diagnostics with a given code. -/
def countCode (c : String) (ds : List Diagnostic) : Nat :=
  ds.countP (fun d => d.code = c)

/-- Diagnostics with a given code, in order. -/
def filterCode (c : String) (ds : List Diagnostic) : List Diagnostic :=
  ds.filter (fun d => d.code = c)

/-- The diagnostic block the visitor appends when it reaches a node (before
recursing into the node's children). -/
def checksOf (lines : List String) : Node → List Diagnostic
  | .functionDef loc nm isA _ body _ => checkFunction lines loc nm isA body
  | .callE _ f _ => checkCall f
  | .whileE loc t _ _ => checkWhile loc t
  | _ => []

/-- A call target that resolves to a forbidden name (the firing condition
of the NASA01-A rule, as a function of the call's target sub-expression). -/
def isForbiddenTarget (f : Node) : Bool :=
  match callTargetName f with
  | some (nm, _) => decide (nm ∈ forbiddenNames)
  | none => false

/-- A call expression whose resolved target name is forbidden. -/
def isForbiddenCallNode : Node → Bool
  | .callE _ f _ => isForbiddenTarget f
  | _ => false

/-- A literal boolean constant `True` (`node.test.value is True`). -/
def isTrueConst : Node → Bool
  | .boolConst _ true => true
  | _ => false

/-- A while-loop whose test is the literal boolean constant `True` (the
firing condition of the NASA02 rule). -/
def isWhileTrueNode : Node → Bool
  | .whileE _ t _ _ => isTrueConst t
  | _ => false

/-- Any function/procedure definition node. -/
def isFuncDefNode : Node → Bool
  | .functionDef .. => true
  | _ => false

/-- A function definition whose body scan finds fewer than two assert
statements (the firing condition of the NASA05 rule). -/
def isLowAssertFuncNode : Node → Bool
  | .functionDef _ _ _ _ body _ => bodyScanCount isAssertNode body < 2
  | _ => false

/-- A function definition spanning a raw-line difference of at least 60
(the firing condition of the NASA04 rule). -/
def isLongFuncNode : Node → Bool
  | .functionDef loc _ _ _ _ _ => 60 ≤ loc.end_lineno - loc.lineno
  | _ => false

/-- A function definition whose body scan finds a call to its own name
(the firing condition of the NASA01-B rule). -/
def isSelfRecFuncNode : Node → Bool
  | .functionDef _ nm _ _ body _ => callsSelf nm body
  | _ => false

/-- The assertion count as the specification words it ("assertions inside
any nested function/procedure/type definition never count"): a scan of the
function body that never descends into a nested definition, even one nested
deeper inside a compound statement.  Defined for comparison with the code's
`bodyScanCount`, which skips only direct-child definitions. -/
def specDirectAsserts (body : List Node) : Nat :=
  scopedCountList isDefOrClass isAssertNode body

/-- The self-call count over the specification's direct scope (never
descending into nested definitions), for comparison with `callsSelf`. -/
def specDirectSelfCalls (fname : String) (body : List Node) : Nat :=
  scopedCountList isDefOrClass (isSelfCall fname) body

/-! Concrete parse trees, with the node positions the reference parser
produces for the given texts. -/

/-- Tree of `"def foo():\n    pass"`. -/
def fooTree : Node :=
  .module [.functionDef ⟨1, 0, 2, 8⟩ "foo" false [] [.other ⟨2, 4, 2, 8⟩ []] []]

/-- Tree of `"eval(0)"`. -/
def evalTree : Node :=
  .module [.other ⟨1, 0, 1, 7⟩
    [.callE ⟨1, 0, 1, 7⟩ (.nameE ⟨1, 0, 1, 4⟩ "eval") [.otherConst ⟨1, 5, 1, 6⟩]]]

/-- Body of the function `f` in `deepNestTree`: a single `if` statement
holding a nested function definition `g` with two asserts. -/
def deepNestFBody : List Node :=
  [.other ⟨2, 4, 5, 20⟩
    [.otherConst ⟨2, 7, 2, 8⟩,
     .functionDef ⟨3, 8, 5, 20⟩ "g" false []
       [.assertE ⟨4, 12, 4, 20⟩ [.otherConst ⟨4, 19, 4, 20⟩],
        .assertE ⟨5, 12, 5, 20⟩ [.otherConst ⟨5, 19, 5, 20⟩]] []]]

/-- Text of the deep-nesting example. -/
def deepNestText : String :=
  "def f():\n    if 0:\n        def g():\n            assert 0\n            assert 0"

/-- Tree of `deepNestText`. -/
def deepNestTree : Node :=
  .module [.functionDef ⟨1, 0, 5, 20⟩ "f" false [] deepNestFBody []]

/-- Tree of `"def f():\n    f()"`. -/
def selfRecTree : Node :=
  .module [.functionDef ⟨1, 0, 2, 7⟩ "f" false []
    [.other ⟨2, 4, 2, 7⟩ [.callE ⟨2, 4, 2, 7⟩ (.nameE ⟨2, 4, 2, 5⟩ "f") []]] []]

/-- Tree of `"def f():\n    g()\n\ndef g():\n    f()"` (mutual recursion). -/
def mutualRecTree : Node :=
  .module
    [.functionDef ⟨1, 0, 2, 7⟩ "f" false []
      [.other ⟨2, 4, 2, 7⟩ [.callE ⟨2, 4, 2, 7⟩ (.nameE ⟨2, 4, 2, 5⟩ "g") []]] [],
     .functionDef ⟨4, 0, 5, 7⟩ "g" false []
      [.other ⟨5, 4, 5, 7⟩ [.callE ⟨5, 4, 5, 7⟩ (.nameE ⟨5, 4, 5, 5⟩ "f") []]] []]

/-- Text of a 61-line function: `def f():` followed by 60 assert lines. -/
def longFuncText : String :=
  "def f():\n" ++ String.join (List.replicate 60 "    assert 0\n")

/-- Body of the 61-line function: 60 assert statements on lines 2..61. -/
def longFuncBody : List Node :=
  (List.range 60).map fun i =>
    .assertE ⟨i + 2, 4, i + 2, 12⟩ [.otherConst ⟨i + 2, 11, i + 2, 12⟩]

/-- Tree of `longFuncText`. -/
def longFuncTree : Node :=
  .module [.functionDef ⟨1, 0, 61, 12⟩ "f" false [] longFuncBody []]

/-- Tree of `"while True:\n    pass"`. -/
def whileTrueTree : Node :=
  .module [.whileE ⟨1, 0, 2, 8⟩ (.boolConst ⟨1, 6, 1, 10⟩ true) [.other ⟨2, 4, 2, 8⟩ []] []]

/-- Tree of `"f = lambda: eval(0)"`. -/
def lambdaEvalTree : Node :=
  .module [.other ⟨1, 0, 1, 19⟩
    [.nameE ⟨1, 0, 1, 1⟩ "f",
     .lambdaE ⟨1, 4, 1, 19⟩ []
       (.callE ⟨1, 12, 1, 19⟩ (.nameE ⟨1, 12, 1, 16⟩ "eval") [.otherConst ⟨1, 17, 1, 18⟩])]]

/-- Tree of `"pass"`. -/
def passTree : Node := .module [.other ⟨1, 0, 1, 4⟩ []]

/-- Body of the function `f` in `nestedIndirectTree`: an `if True:` holding
a nested definition `g` that calls `f`, followed by a call to `g`. -/
def nestedIndirectFBody : List Node :=
  [.other ⟨2, 4, 5, 11⟩
    [.boolConst ⟨2, 7, 2, 11⟩ true,
     .functionDef ⟨3, 8, 4, 15⟩ "g" false []
       [.other ⟨4, 12, 4, 15⟩
         [.callE ⟨4, 12, 4, 15⟩ (.nameE ⟨4, 12, 4, 13⟩ "f") []]] [],
     .other ⟨5, 8, 5, 11⟩ [.callE ⟨5, 8, 5, 11⟩ (.nameE ⟨5, 8, 5, 9⟩ "g") []]]]

/-- Text of the indirect-recursion-through-a-nested-definition example. -/
def nestedIndirectText : String :=
  "def f():\n    if True:\n        def g():\n            f()\n        g()"

/-- Tree of `nestedIndirectText`: `f` never calls itself directly, but the
nested `g` (inside the `if`) calls `f` and `f` calls `g` — indirect
recursion. -/
def nestedIndirectTree : Node :=
  .module [.functionDef ⟨1, 0, 5, 11⟩ "f" false [] nestedIndirectFBody []]

/-! Equivalence of the mutable-sink traversal with the declarative
pre-order form. -/
mutual

/-- The sink after visiting `n` is the previous sink contents followed by
the pre-order diagnostics of `n`. -/
theorem visitAcc_eq (lines : List String) :
    ∀ (n : Node) (acc : List Diagnostic),
      visitAcc lines acc n = acc ++ visitPre lines n
  | .module body, acc => by
      simp only [visitAcc, visitPre, visitListAcc_eq lines body]
  | .functionDef loc nm isA args body dec, acc => by
      simp only [visitAcc, visitPre, visitListAcc_eq lines args,
        visitListAcc_eq lines body, visitListAcc_eq lines dec, List.append_assoc]
  | .classDef loc nm cs, acc => by
      simp only [visitAcc, visitPre, visitListAcc_eq lines cs]
  | .callE loc f args, acc => by
      simp only [visitAcc, visitPre, visitAcc_eq lines f,
        visitListAcc_eq lines args, List.append_assoc]
  | .nameE loc id, acc => by
      simp only [visitAcc, visitPre, List.append_nil]
  | .attributeE loc v attr, acc => by
      simp only [visitAcc, visitPre, visitAcc_eq lines v]
  | .whileE loc t b o, acc => by
      simp only [visitAcc, visitPre, visitAcc_eq lines t,
        visitListAcc_eq lines b, visitListAcc_eq lines o, List.append_assoc]
  | .forE loc tg it b o, acc => by
      simp only [visitAcc, visitPre, visitAcc_eq lines tg, visitAcc_eq lines it,
        visitListAcc_eq lines b, visitListAcc_eq lines o, List.append_assoc]
  | .boolConst loc v, acc => by
      simp only [visitAcc, visitPre, List.append_nil]
  | .otherConst loc, acc => by
      simp only [visitAcc, visitPre, List.append_nil]
  | .assertE loc cs, acc => by
      simp only [visitAcc, visitPre, visitListAcc_eq lines cs]
  | .lambdaE loc args b, acc => by
      simp only [visitAcc, visitPre, visitAcc_eq lines b,
        visitListAcc_eq lines args, List.append_assoc]
  | .other loc cs, acc => by
      simp only [visitAcc, visitPre, visitListAcc_eq lines cs]

/-- List version of `visitAcc_eq`. -/
theorem visitListAcc_eq (lines : List String) :
    ∀ (ns : List Node) (acc : List Diagnostic),
      visitListAcc lines acc ns = acc ++ visitListPre lines ns
  | [], acc => by simp only [visitListAcc, visitListPre, List.append_nil]
  | n :: ns, acc => by
      simp only [visitListAcc, visitListPre, visitAcc_eq lines n,
        visitListAcc_eq lines ns, List.append_assoc]

end

/-- Reduction helper for the trivial stop predicate. -/
theorem ite_false_true {a : Type} (x y : a) : (if false = true then x else y) = y := rfl

/-! One-diagnostic-per-offending-node correspondence: if every node's check
block contains exactly one `q`-diagnostic when `P` fires at that node and
none otherwise, then the traversal's `q`-diagnostic count equals the number
of `P`-nodes in the whole tree. -/
mutual

/-- Node version of the count correspondence. -/
theorem countP_visitPre (lines : List String) (q : Diagnostic → Bool) (P : Node → Bool)
    (hq : ∀ m : Node, (checksOf lines m).countP q = if P m then 1 else 0) :
    ∀ n : Node, (visitPre lines n).countP q = walkCount P n
  | .module body => by
      have h := countP_visitListPre lines q P hq body
      have h0 := hq (.module body)
      simp only [checksOf, visitPre, walkCount, scopedCount, List.countP_nil, ite_false_true] at *
      omega
  | .functionDef loc nm isA args body dec => by
      have h1 := countP_visitListPre lines q P hq args
      have h2 := countP_visitListPre lines q P hq body
      have h3 := countP_visitListPre lines q P hq dec
      have h0 := hq (.functionDef loc nm isA args body dec)
      simp only [checksOf, visitPre, walkCount, scopedCount, List.countP_append, ite_false_true] at *
      omega
  | .classDef loc nm cs => by
      have h := countP_visitListPre lines q P hq cs
      have h0 := hq (.classDef loc nm cs)
      simp only [checksOf, visitPre, walkCount, scopedCount, List.countP_nil, ite_false_true] at *
      omega
  | .callE loc f args => by
      have h1 := countP_visitPre lines q P hq f
      have h2 := countP_visitListPre lines q P hq args
      have h0 := hq (.callE loc f args)
      simp only [checksOf, visitPre, walkCount, scopedCount, List.countP_append, ite_false_true] at *
      omega
  | .nameE loc id => by
      have h0 := hq (.nameE loc id)
      simp only [checksOf, visitPre, walkCount, scopedCount, List.countP_nil, ite_false_true] at *
      omega
  | .attributeE loc v attr => by
      have h1 := countP_visitPre lines q P hq v
      have h0 := hq (.attributeE loc v attr)
      simp only [checksOf, visitPre, walkCount, scopedCount, List.countP_nil, ite_false_true] at *
      omega
  | .whileE loc t b o => by
      have h1 := countP_visitPre lines q P hq t
      have h2 := countP_visitListPre lines q P hq b
      have h3 := countP_visitListPre lines q P hq o
      have h0 := hq (.whileE loc t b o)
      simp only [checksOf, visitPre, walkCount, scopedCount, List.countP_append, ite_false_true] at *
      omega
  | .forE loc tg it b o => by
      have h1 := countP_visitPre lines q P hq tg
      have h2 := countP_visitPre lines q P hq it
      have h3 := countP_visitListPre lines q P hq b
      have h4 := countP_visitListPre lines q P hq o
      have h0 := hq (.forE loc tg it b o)
      simp only [checksOf, List.countP_nil] at h0
      simp only [visitPre, walkCount, scopedCount, List.countP_append, ite_false_true] at h1 h2 h3 h4 ⊢
      omega
  | .boolConst loc v => by
      have h0 := hq (.boolConst loc v)
      simp only [checksOf, visitPre, walkCount, scopedCount, List.countP_nil, ite_false_true] at *
      omega
  | .otherConst loc => by
      have h0 := hq (.otherConst loc)
      simp only [checksOf, visitPre, walkCount, scopedCount, List.countP_nil, ite_false_true] at *
      omega
  | .assertE loc cs => by
      have h := countP_visitListPre lines q P hq cs
      have h0 := hq (.assertE loc cs)
      simp only [checksOf, visitPre, walkCount, scopedCount, List.countP_nil, ite_false_true] at *
      omega
  | .lambdaE loc args b => by
      have h1 := countP_visitListPre lines q P hq args
      have h2 := countP_visitPre lines q P hq b
      have h0 := hq (.lambdaE loc args b)
      simp only [checksOf, List.countP_nil] at h0
      simp only [visitPre, walkCount, scopedCount, List.countP_append, ite_false_true] at h1 h2 ⊢
      omega
  | .other loc cs => by
      have h := countP_visitListPre lines q P hq cs
      have h0 := hq (.other loc cs)
      simp only [checksOf, visitPre, walkCount, scopedCount, List.countP_nil, ite_false_true] at *
      omega

/-- List version of the count correspondence. -/
theorem countP_visitListPre (lines : List String) (q : Diagnostic → Bool) (P : Node → Bool)
    (hq : ∀ m : Node, (checksOf lines m).countP q = if P m then 1 else 0) :
    ∀ ns : List Node,
      (visitListPre lines ns).countP q = scopedCountList (fun _ => false) P ns
  | [] => by simp [visitListPre, scopedCountList]
  | n :: ns => by
      have h1 := countP_visitPre lines q P hq n
      have h2 := countP_visitListPre lines q P hq ns
      simp only [visitListPre, scopedCountList, List.countP_append, walkCount] at *
      omega

end

/-- NASA01-B diagnostics of a function-level check block. -/
theorem countCode_checkFunction_nasa01b (lines : List String) (loc : Loc)
    (nm : String) (isA : Bool) (body : List Node) :
    countCode "NASA01-B" (checkFunction lines loc nm isA body) =
      if callsSelf nm body then 1 else 0 := by
  simp only [countCode, checkFunction, List.countP_append]
  split_ifs <;> simp

/-- NASA04 diagnostics of a function-level check block. -/
theorem countCode_checkFunction_nasa04 (lines : List String) (loc : Loc)
    (nm : String) (isA : Bool) (body : List Node) :
    countCode "NASA04" (checkFunction lines loc nm isA body) =
      if 60 ≤ loc.end_lineno - loc.lineno then 1 else 0 := by
  simp only [countCode, checkFunction, List.countP_append]
  split_ifs <;> simp

/-- NASA05 diagnostics of a function-level check block. -/
theorem countCode_checkFunction_nasa05 (lines : List String) (loc : Loc)
    (nm : String) (isA : Bool) (body : List Node) :
    countCode "NASA05" (checkFunction lines loc nm isA body) =
      if bodyScanCount isAssertNode body < 2 then 1 else 0 := by
  simp only [countCode, checkFunction, List.countP_append]
  split_ifs <;> simp

/-- A function-level check block contains no call or loop diagnostics. -/
theorem countCode_checkFunction_other (lines : List String) (loc : Loc)
    (nm : String) (isA : Bool) (body : List Node) (c : String)
    (h1 : c ≠ "NASA01-B") (h4 : c ≠ "NASA04") (h5 : c ≠ "NASA05") :
    countCode c (checkFunction lines loc nm isA body) = 0 := by
  simp only [countCode, checkFunction, List.countP_append]
  split_ifs <;>
    simp [List.countP_cons, (Ne.symm h1 : _), (Ne.symm h4 : _), (Ne.symm h5 : _)]

/-- The diagnostics of a call check block. -/
theorem countCode_checkCall (f : Node) (c : String) :
    countCode c (checkCall f) =
      if c = "NASA01-A" ∧ isForbiddenTarget f then 1 else 0 := by
  unfold countCode checkCall isForbiddenTarget
  cases hf : callTargetName f with
  | none => simp [hf]
  | some p =>
    obtain ⟨nm, l⟩ := p
    by_cases hmem : nm ∈ forbiddenNames <;> by_cases hc : c = "NASA01-A" <;>
      simp [hf, hmem, hc, eq_comm]

/-- The diagnostics of a while check block. -/
theorem countCode_checkWhile (loc : Loc) (t : Node) (c : String) :
    countCode c (checkWhile loc t) =
      if c = "NASA02" ∧ isTrueConst t then 1 else 0 := by
  unfold countCode checkWhile isTrueConst
  cases t <;> try simp
  case boolConst l v =>
    cases v <;> by_cases hc : c = "NASA02" <;> simp [hc, eq_comm]

/-- Per-node NASA01-A check-block count. -/
theorem checks_count_nasa01a (lines : List String) :
    ∀ m : Node, (checksOf lines m).countP (fun d => d.code = "NASA01-A") =
      if isForbiddenCallNode m then 1 else 0 := by
  intro m
  cases m
  case functionDef loc nm isA args body dec =>
    simpa [countCode, checksOf, isForbiddenCallNode] using
      countCode_checkFunction_other lines loc nm isA body "NASA01-A"
        (by decide) (by decide) (by decide)
  case callE loc f args =>
    simpa [countCode, checksOf, isForbiddenCallNode] using countCode_checkCall f "NASA01-A"
  case whileE loc t b o =>
    simpa [countCode, checksOf, isForbiddenCallNode] using countCode_checkWhile loc t "NASA01-A"
  all_goals simp [checksOf, isForbiddenCallNode]

/-- Per-node NASA02 check-block count. -/
theorem checks_count_nasa02 (lines : List String) :
    ∀ m : Node, (checksOf lines m).countP (fun d => d.code = "NASA02") =
      if isWhileTrueNode m then 1 else 0 := by
  intro m
  cases m
  case functionDef loc nm isA args body dec =>
    simpa [countCode, checksOf, isWhileTrueNode] using
      countCode_checkFunction_other lines loc nm isA body "NASA02"
        (by decide) (by decide) (by decide)
  case callE loc f args =>
    simpa [countCode, checksOf, isWhileTrueNode] using countCode_checkCall f "NASA02"
  case whileE loc t b o =>
    simpa [countCode, checksOf, isWhileTrueNode] using countCode_checkWhile loc t "NASA02"
  all_goals simp [checksOf, isWhileTrueNode]

/-- Per-node NASA01-B check-block count. -/
theorem checks_count_nasa01b (lines : List String) :
    ∀ m : Node, (checksOf lines m).countP (fun d => d.code = "NASA01-B") =
      if isSelfRecFuncNode m then 1 else 0 := by
  intro m
  cases m
  case functionDef loc nm isA args body dec =>
    simpa [countCode, checksOf, isSelfRecFuncNode] using
      countCode_checkFunction_nasa01b lines loc nm isA body
  case callE loc f args =>
    simpa [countCode, checksOf, isSelfRecFuncNode] using countCode_checkCall f "NASA01-B"
  case whileE loc t b o =>
    simpa [countCode, checksOf, isSelfRecFuncNode] using countCode_checkWhile loc t "NASA01-B"
  all_goals simp [checksOf, isSelfRecFuncNode]

/-- Per-node NASA04 check-block count. -/
theorem checks_count_nasa04 (lines : List String) :
    ∀ m : Node, (checksOf lines m).countP (fun d => d.code = "NASA04") =
      if isLongFuncNode m then 1 else 0 := by
  intro m
  cases m
  case functionDef loc nm isA args body dec =>
    simpa [countCode, checksOf, isLongFuncNode] using
      countCode_checkFunction_nasa04 lines loc nm isA body
  case callE loc f args =>
    simpa [countCode, checksOf, isLongFuncNode] using countCode_checkCall f "NASA04"
  case whileE loc t b o =>
    simpa [countCode, checksOf, isLongFuncNode] using countCode_checkWhile loc t "NASA04"
  all_goals simp [checksOf, isLongFuncNode]

/-- Per-node NASA05 check-block count. -/
theorem checks_count_nasa05 (lines : List String) :
    ∀ m : Node, (checksOf lines m).countP (fun d => d.code = "NASA05") =
      if isLowAssertFuncNode m then 1 else 0 := by
  intro m
  cases m
  case functionDef loc nm isA args body dec =>
    simpa [countCode, checksOf, isLowAssertFuncNode] using
      countCode_checkFunction_nasa05 lines loc nm isA body
  case callE loc f args =>
    simpa [countCode, checksOf, isLowAssertFuncNode] using countCode_checkCall f "NASA05"
  case whileE loc t b o =>
    simpa [countCode, checksOf, isLowAssertFuncNode] using countCode_checkWhile loc t "NASA05"
  all_goals simp [checksOf, isLowAssertFuncNode]

/-- NASA01-A diagnostics of a traversal correspond one-to-one to calls with
a forbidden resolved target name. -/
theorem visitPre_count_nasa01a (lines : List String) (n : Node) :
    countCode "NASA01-A" (visitPre lines n) = walkCount isForbiddenCallNode n :=
  countP_visitPre lines _ _ (checks_count_nasa01a lines) n

/-- NASA02 diagnostics of a traversal correspond one-to-one to while-loops
with a literal `True` test. -/
theorem visitPre_count_nasa02 (lines : List String) (n : Node) :
    countCode "NASA02" (visitPre lines n) = walkCount isWhileTrueNode n :=
  countP_visitPre lines _ _ (checks_count_nasa02 lines) n

/-- NASA01-B diagnostics of a traversal correspond one-to-one to function
definitions whose body scan finds a self-call. -/
theorem visitPre_count_nasa01b (lines : List String) (n : Node) :
    countCode "NASA01-B" (visitPre lines n) = walkCount isSelfRecFuncNode n :=
  countP_visitPre lines _ _ (checks_count_nasa01b lines) n

/-- NASA04 diagnostics of a traversal correspond one-to-one to function
definitions with raw-line difference at least 60. -/
theorem visitPre_count_nasa04 (lines : List String) (n : Node) :
    countCode "NASA04" (visitPre lines n) = walkCount isLongFuncNode n :=
  countP_visitPre lines _ _ (checks_count_nasa04 lines) n

/-- NASA05 diagnostics of a traversal correspond one-to-one to function
definitions whose body scan finds fewer than two asserts. -/
theorem visitPre_count_nasa05 (lines : List String) (n : Node) :
    countCode "NASA05" (visitPre lines n) = walkCount isLowAssertFuncNode n :=
  countP_visitPre lines _ _ (checks_count_nasa05 lines) n

/-- The NASA01-B diagnostics of a function-level check block, with content. -/
theorem filterCode_checkFunction_nasa01b (lines : List String) (loc : Loc)
    (nm : String) (isA : Bool) (body : List Node) :
    filterCode "NASA01-B" (checkFunction lines loc nm isA body) =
      if callsSelf nm body then
        [{ range := rangeForFuncName lines loc nm isA
           message := "Recursive call to '" ++ nm ++ "' (NASA01: no recursion)"
           code := "NASA01-B" }]
      else [] := by
  simp only [filterCode, checkFunction, List.filter_append]
  split_ifs <;> simp

/-- The NASA04 diagnostics of a function-level check block, with content. -/
theorem filterCode_checkFunction_nasa04 (lines : List String) (loc : Loc)
    (nm : String) (isA : Bool) (body : List Node) :
    filterCode "NASA04" (checkFunction lines loc nm isA body) =
      if 60 ≤ loc.end_lineno - loc.lineno then
        [{ range := rangeForFuncName lines loc nm isA
           message := "Function '" ++ nm ++ "' longer than 60 lines (NASA04: No function longer than 60 lines)"
           code := "NASA04" }]
      else [] := by
  simp only [filterCode, checkFunction, List.filter_append]
  split_ifs <;> simp

/-- The NASA05 diagnostics of a function-level check block, with content. -/
theorem filterCode_checkFunction_nasa05 (lines : List String) (loc : Loc)
    (nm : String) (isA : Bool) (body : List Node) :
    filterCode "NASA05" (checkFunction lines loc nm isA body) =
      if bodyScanCount isAssertNode body < 2 then
        [{ range := rangeForFuncName lines loc nm isA
           message := "Function '" ++ nm ++ "' has only " ++
             toString (bodyScanCount isAssertNode body) ++
             " assert(s); expected at least 2 asserts (NASA05: use assertions to detect impossible conditions)"
           code := "NASA05" }]
      else [] := by
  simp only [filterCode, checkFunction, List.filter_append]
  split_ifs <;> simp

/-! Stopping at nested definitions can only reduce the count: the
specification's direct-scope counts are bounded by the code's scan. -/
mutual

/-- Node version of count monotonicity in the stop predicate. -/
theorem scopedCount_le (stop p : Node → Bool) :
    ∀ n : Node, scopedCount stop p n ≤ scopedCount (fun _ => false) p n
  | .module body => by
      have h := scopedCountList_le stop p body
      simp only [scopedCount, ite_false_true]
      split
      · exact Nat.zero_le _
      · omega
  | .functionDef loc nm isA args body dec => by
      have h1 := scopedCountList_le stop p args
      have h2 := scopedCountList_le stop p body
      have h3 := scopedCountList_le stop p dec
      simp only [scopedCount, ite_false_true]
      split
      · exact Nat.zero_le _
      · omega
  | .classDef loc nm cs => by
      have h := scopedCountList_le stop p cs
      simp only [scopedCount, ite_false_true]
      split
      · exact Nat.zero_le _
      · omega
  | .callE loc f args => by
      have h1 := scopedCount_le stop p f
      have h2 := scopedCountList_le stop p args
      simp only [scopedCount, ite_false_true]
      split
      · exact Nat.zero_le _
      · omega
  | .nameE loc id => by
      simp only [scopedCount, ite_false_true]
      split
      · exact Nat.zero_le _
      · omega
  | .attributeE loc v attr => by
      have h := scopedCount_le stop p v
      simp only [scopedCount, ite_false_true]
      split
      · exact Nat.zero_le _
      · omega
  | .whileE loc t b o => by
      have h1 := scopedCount_le stop p t
      have h2 := scopedCountList_le stop p b
      have h3 := scopedCountList_le stop p o
      simp only [scopedCount, ite_false_true]
      split
      · exact Nat.zero_le _
      · omega
  | .forE loc tg it b o => by
      have h1 := scopedCount_le stop p tg
      have h2 := scopedCount_le stop p it
      have h3 := scopedCountList_le stop p b
      have h4 := scopedCountList_le stop p o
      simp only [scopedCount, ite_false_true]
      split
      · exact Nat.zero_le _
      · omega
  | .boolConst loc v => by
      simp only [scopedCount, ite_false_true]
      split
      · exact Nat.zero_le _
      · omega
  | .otherConst loc => by
      simp only [scopedCount, ite_false_true]
      split
      · exact Nat.zero_le _
      · omega
  | .assertE loc cs => by
      have h := scopedCountList_le stop p cs
      simp only [scopedCount, ite_false_true]
      split
      · exact Nat.zero_le _
      · omega
  | .lambdaE loc args b => by
      have h1 := scopedCountList_le stop p args
      have h2 := scopedCount_le stop p b
      simp only [scopedCount, ite_false_true]
      split
      · exact Nat.zero_le _
      · omega
  | .other loc cs => by
      have h := scopedCountList_le stop p cs
      simp only [scopedCount, ite_false_true]
      split
      · exact Nat.zero_le _
      · omega

/-- List version of count monotonicity in the stop predicate. -/
theorem scopedCountList_le (stop p : Node → Bool) :
    ∀ ns : List Node, scopedCountList stop p ns ≤ scopedCountList (fun _ => false) p ns
  | [] => Nat.le_refl _
  | n :: ns => by
      have h1 := scopedCount_le stop p n
      have h2 := scopedCountList_le stop p ns
      simp only [scopedCountList]
      omega

end

/-- The specification's direct-scope count is bounded by the code's body
scan: stopping at every nested definition finds no more matches than
skipping only direct-child definitions. -/
theorem scopedCountList_le_bodyScanCount (p : Node → Bool) :
    ∀ body : List Node, scopedCountList isDefOrClass p body ≤ bodyScanCount p body := by
  intro body
  induction body with
  | nil => exact Nat.le_refl _
  | cons stmt rest ih =>
    by_cases hd : isDefOrClass stmt = true
    · have h0 : scopedCount isDefOrClass p stmt = 0 := by
        rw [scopedCount.eq_def, if_pos hd]
      simp only [scopedCountList, bodyScanCount, hd, if_true, h0]
      omega
    · have h1 := scopedCount_le isDefOrClass p stmt
      simp only [scopedCountList, bodyScanCount, hd, walkCount, ite_false_true,
        Bool.not_eq_true] at *
      omega

/-- A while check block is empty whenever the test is not a literal `True`. -/
theorem checkWhile_of_not_true (loc : Loc) (t : Node) (ht : isTrueConst t = false) :
    checkWhile loc t = [] := by
  cases t <;> try rfl
  case boolConst l v =>
    cases v
    · rfl
    · exact absurd ht (by simp [isTrueConst])

/-! Claim theorems. -/

/-- Claim C1 (confirmed): for every input string that fails to parse,
`analyze` returns the empty diagnostic sequence — it does not raise and
does not return a partial result.  A parse failure is modelled by
`parsed = none`; the reference parser accepts the empty string (it parses
to an empty module), so a parse-failing input is necessarily non-empty and
the leading `assert text` cannot fire. -/
theorem claim_c1_parse_failure (text : String) (h : text ≠ "") :
    analyze text none = Except.ok [] := by
  simp [analyze, h]

/-- Witness for C1 at the parse-failing input `"def broken("`. -/
theorem claim_c1_parse_failure_witness :
    "def broken(" ≠ "" ∧ analyze "def broken(" none = Except.ok [] :=
  ⟨by decide, claim_c1_parse_failure "def broken(" (by decide)⟩

/-- Claim C2 (code bug): the claim — and the repository's own test
`test_analyze_returns_empty_for_empty_string` — require every successfully
parsed input, including the empty string, to terminate normally and return
a list; but `analyze` begins with `assert text`, which fails on `""` (an
empty string is falsy), raising `AssertionError` even though `""` parses to
an empty module. -/
theorem claim_c2_empty_string_raises :
    analyze "" (some (Node.module [])) = Except.error PyException.assertionError := rfl

/-- Claim C3 (counterexample): at the input `"eval(0)"` the emitted NASA01-A
message is `Call to forbidden API 'eval' (NASA01: restricted subset)`, which
differs from the claimed exact message
`Call to forbidden API 'eval' (restricted subset)`. -/
theorem claim_c3_counterexample :
    analyze "eval(0)" (some evalTree) =
      Except.ok [{ range := { start := ⟨0, 0⟩, endPos := ⟨0, 4⟩ }
                   message := "Call to forbidden API 'eval' (NASA01: restricted subset)"
                   code := "NASA01-A" }] ∧
    "Call to forbidden API 'eval' (NASA01: restricted subset)" ≠
      "Call to forbidden API 'eval' (restricted subset)" :=
  ⟨rfl, by decide⟩

/-- Claim C3 (amended): for every call expression whose target is a bare
name reference, or an attribute access whose member identifier, equals one
of {eval, exec, compile, globals, locals, __import__, setattr, getattr},
the traversal emits exactly one NASA01-A diagnostic for that call, with
range covering exactly the call-target sub-expression (not the whole call)
and message exactly `Call to forbidden API '<name>' (NASA01: restricted
subset)`; calls whose target is any other expression shape are never
checked by this rule; and the number of NASA01-A diagnostics of a whole
traversal equals the number of such calls. -/
theorem claim_c3_amended :
    (∀ (lines : List String) (loc tl : Loc) (f : Node) (args : List Node) (nm : String),
      (f = Node.nameE tl nm ∨ ∃ v, f = Node.attributeE tl v nm) →
      nm ∈ ["eval", "exec", "compile", "globals", "locals", "__import__", "setattr", "getattr"] →
      visitPre lines (Node.callE loc f args) =
        { range := rangeForNode tl
          message := "Call to forbidden API '" ++ nm ++ "' (NASA01: restricted subset)"
          code := "NASA01-A" } :: (visitPre lines f ++ visitListPre lines args)) ∧
    (∀ (lines : List String) (loc : Loc) (f : Node) (args : List Node),
      callTargetName f = none →
      visitPre lines (Node.callE loc f args) = visitPre lines f ++ visitListPre lines args) ∧
    (∀ (lines : List String) (n : Node),
      countCode "NASA01-A" (visitPre lines n) = walkCount isForbiddenCallNode n) := by
  refine ⟨?_, ?_, visitPre_count_nasa01a⟩
  · rintro lines loc tl f args nm hshape hmem
    have hmem' : nm ∈ forbiddenNames := by simpa [forbiddenNames] using hmem
    rcases hshape with rfl | ⟨v, rfl⟩ <;>
      simp [visitPre, checkCall, callTargetName, hmem']
  · intro lines loc f args hnone
    simp [visitPre, checkCall, hnone]

/-- Witness for C3 (amended) at a bare `eval` call. -/
theorem claim_c3_amended_witness :
    visitPre [] (Node.callE ⟨1, 0, 1, 7⟩ (Node.nameE ⟨1, 0, 1, 4⟩ "eval") []) =
      [{ range := rangeForNode ⟨1, 0, 1, 4⟩
         message := "Call to forbidden API 'eval' (NASA01: restricted subset)"
         code := "NASA01-A" }] := by
  have h := claim_c3_amended.1 [] ⟨1, 0, 1, 7⟩ ⟨1, 0, 1, 4⟩
      (Node.nameE ⟨1, 0, 1, 4⟩ "eval") [] "eval" (Or.inl rfl) (by decide)
  simpa [visitPre, visitListPre] using h

/-- Claim C4 (counterexample): in the input
`def f():\n    if 0:\n        def g():\n            assert 0\n            assert 0`
both asserts sit inside a nested definition, so per the claim they must not
count toward `f` (whose count would be 0 < 2, forcing a NASA05 for `f`);
yet the analyzer walks through the compound `if` into `g`, counts 2, and
emits no diagnostic at all.  Moreover at `"def foo():\n    pass"` the
emitted NASA05 message carries the `NASA05: ` prefix, unlike the claimed
exact message. -/
theorem claim_c4_counterexample :
    specDirectAsserts deepNestFBody = 0 ∧
    bodyScanCount isAssertNode deepNestFBody = 2 ∧
    analyze deepNestText (some deepNestTree) = Except.ok [] ∧
    analyze "def foo():\n    pass" (some fooTree) =
      Except.ok [{ range := { start := ⟨0, 4⟩, endPos := ⟨0, 7⟩ }
                   message := "Function 'foo' has only 0 assert(s); expected at least 2 asserts (NASA05: use assertions to detect impossible conditions)"
                   code := "NASA05" }] ∧
    "Function 'foo' has only 0 assert(s); expected at least 2 asserts (NASA05: use assertions to detect impossible conditions)" ≠
      "Function 'foo' has only 0 assert(s); expected at least 2 asserts (use assertions to detect impossible conditions)" :=
  ⟨rfl, rfl, rfl, rfl, by decide⟩

/-- Claim C4 (amended): for every function definition, let count be the
number of assert statements found by walking the direct-child statements of
its body, skipping only statements that are themselves function/class
definitions (asserts inside definitions nested deeper, inside compound
statements, do count); if count < 2 the function's check block contains
exactly one NASA05 diagnostic anchored at the function-name range with
message `Function '<name>' has only <count> assert(s); expected at least 2
asserts (NASA05: use assertions to detect impossible conditions)`; with
count ≥ 2 it contains none; and NASA05 diagnostics of a whole traversal
correspond one-to-one to function-definition nodes with count < 2 (so
module-level statements are never checked by this rule). -/
theorem claim_c4_amended :
    (∀ (lines : List String) (loc : Loc) (nm : String) (isA : Bool) (body : List Node),
      bodyScanCount isAssertNode body < 2 →
      filterCode "NASA05" (checkFunction lines loc nm isA body) =
        [{ range := rangeForFuncName lines loc nm isA
           message := "Function '" ++ nm ++ "' has only " ++
             toString (bodyScanCount isAssertNode body) ++
             " assert(s); expected at least 2 asserts (NASA05: use assertions to detect impossible conditions)"
           code := "NASA05" }]) ∧
    (∀ (lines : List String) (loc : Loc) (nm : String) (isA : Bool) (body : List Node),
      2 ≤ bodyScanCount isAssertNode body →
      countCode "NASA05" (checkFunction lines loc nm isA body) = 0) ∧
    (∀ (lines : List String) (n : Node),
      countCode "NASA05" (visitPre lines n) = walkCount isLowAssertFuncNode n) := by
  refine ⟨?_, ?_, visitPre_count_nasa05⟩
  · intro lines loc nm isA body h
    rw [filterCode_checkFunction_nasa05, if_pos h]
  · intro lines loc nm isA body h
    rw [countCode_checkFunction_nasa05, if_neg (by omega)]

/-- Witness for C4 (amended) at the body of `def foo():\n    pass`. -/
theorem claim_c4_amended_witness :
    bodyScanCount isAssertNode [Node.other ⟨2, 4, 2, 8⟩ []] < 2 ∧
    filterCode "NASA05"
        (checkFunction ["def foo():", "    pass"] ⟨1, 0, 2, 8⟩ "foo" false
          [Node.other ⟨2, 4, 2, 8⟩ []]) =
      [{ range := { start := ⟨0, 4⟩, endPos := ⟨0, 7⟩ }
         message := "Function 'foo' has only 0 assert(s); expected at least 2 asserts (NASA05: use assertions to detect impossible conditions)"
         code := "NASA05" }] :=
  ⟨by decide,
    (claim_c4_amended.1 ["def foo():", "    pass"] ⟨1, 0, 2, 8⟩ "foo" false
        [Node.other ⟨2, 4, 2, 8⟩ []] (by decide)).trans (by rfl)⟩

/-- Claim C5 (counterexample): two failures.  First, at
`"def f():\n    f()"` the emitted NASA01-B message is
`Recursive call to 'f' (NASA01: no recursion)`, which differs from the
claimed exact message `Recursive call to 'f' (no recursion)`.  Second, the
claim says mutual/indirect recursion yields no NASA01-B, but at
`def f():\n    if True:\n        def g():\n            f()\n        g()`
the function `f` contains no self-call in its direct scope (the only call
to `f` sits inside the nested definition `g`, i.e. the recursion is
indirect, f → g → f), yet the analyzer's `ast.walk` descends through the
`if` into `g`, finds the call to `f`, and emits a NASA01-B for `f`. -/
theorem claim_c5_counterexample :
    (analyze "def f():\n    f()" (some selfRecTree) =
      Except.ok
        [{ range := { start := ⟨0, 4⟩, endPos := ⟨0, 5⟩ }
           message := "Recursive call to 'f' (NASA01: no recursion)"
           code := "NASA01-B" },
         { range := { start := ⟨0, 4⟩, endPos := ⟨0, 5⟩ }
           message := "Function 'f' has only 0 assert(s); expected at least 2 asserts (NASA05: use assertions to detect impossible conditions)"
           code := "NASA05" }] ∧
     "Recursive call to 'f' (NASA01: no recursion)" ≠
       "Recursive call to 'f' (no recursion)") ∧
    (specDirectSelfCalls "f" nestedIndirectFBody = 0 ∧
     analyze nestedIndirectText (some nestedIndirectTree) =
       Except.ok
         [{ range := { start := ⟨0, 4⟩, endPos := ⟨0, 5⟩ }
            message := "Recursive call to 'f' (NASA01: no recursion)"
            code := "NASA01-B" },
          { range := { start := ⟨0, 4⟩, endPos := ⟨0, 5⟩ }
            message := "Function 'f' has only 0 assert(s); expected at least 2 asserts (NASA05: use assertions to detect impossible conditions)"
            code := "NASA05" },
          { range := { start := ⟨2, 12⟩, endPos := ⟨2, 13⟩ }
            message := "Function 'g' has only 0 assert(s); expected at least 2 asserts (NASA05: use assertions to detect impossible conditions)"
            code := "NASA05" }]) :=
  ⟨⟨rfl, by decide⟩, rfl, rfl⟩

/-- Claim C5 (amended): for every function definition, the check block
contains exactly one NASA01-B diagnostic — anchored at the function-name
range, with message exactly `Recursive call to '<name>' (NASA01: no
recursion)`, even if multiple self-calls exist — precisely when the body
scan finds a call whose target is a bare name reference equal to the
function's own name, where the scan walks the direct-child statements of
the body, skips only statements that are themselves function/class
definitions, and does descend into definitions nested deeper inside
compound statements.  Consequently a self-call in the specification's
direct scope always triggers it; mutual recursion between two sibling
functions yields none (neither scan sees its own name, as in the concrete
module below); but indirect recursion through a definition nested under a
compound statement is flagged for the enclosing function (see the
counterexample).  The NASA01-B diagnostics of a whole traversal correspond
one-to-one to function definitions whose scan finds a self-call. -/
theorem claim_c5_amended :
    (∀ (lines : List String) (loc : Loc) (nm : String) (isA : Bool) (body : List Node),
      filterCode "NASA01-B" (checkFunction lines loc nm isA body) =
        if callsSelf nm body then
          [{ range := rangeForFuncName lines loc nm isA
             message := "Recursive call to '" ++ nm ++ "' (NASA01: no recursion)"
             code := "NASA01-B" }]
        else []) ∧
    (∀ (nm : String) (body : List Node),
      specDirectSelfCalls nm body ≠ 0 → callsSelf nm body = true) ∧
    (∀ (lines : List String) (n : Node),
      countCode "NASA01-B" (visitPre lines n) = walkCount isSelfRecFuncNode n) ∧
    analyze "def f():\n    g()\n\ndef g():\n    f()" (some mutualRecTree) =
      Except.ok
        [{ range := { start := ⟨0, 4⟩, endPos := ⟨0, 5⟩ }
           message := "Function 'f' has only 0 assert(s); expected at least 2 asserts (NASA05: use assertions to detect impossible conditions)"
           code := "NASA05" },
         { range := { start := ⟨3, 4⟩, endPos := ⟨3, 5⟩ }
           message := "Function 'g' has only 0 assert(s); expected at least 2 asserts (NASA05: use assertions to detect impossible conditions)"
           code := "NASA05" }] := by
  refine ⟨filterCode_checkFunction_nasa01b, ?_, visitPre_count_nasa01b, rfl⟩
  intro nm body h
  have hle := scopedCountList_le_bodyScanCount (isSelfCall nm) body
  have hb : bodyScanCount (isSelfCall nm) body ≠ 0 := by
    simp only [specDirectSelfCalls] at h
    omega
  simp [callsSelf, hb]

/-- Witness for C5 (amended) at the body of `def f():\n    f()`. -/
theorem claim_c5_amended_witness :
    specDirectSelfCalls "f"
        [Node.other ⟨2, 4, 2, 7⟩
          [Node.callE ⟨2, 4, 2, 7⟩ (Node.nameE ⟨2, 4, 2, 5⟩ "f") []]] ≠ 0 ∧
    callsSelf "f"
        [Node.other ⟨2, 4, 2, 7⟩
          [Node.callE ⟨2, 4, 2, 7⟩ (Node.nameE ⟨2, 4, 2, 5⟩ "f") []]] = true :=
  ⟨by decide,
    claim_c5_amended.2.1 "f"
      [Node.other ⟨2, 4, 2, 7⟩
        [Node.callE ⟨2, 4, 2, 7⟩ (Node.nameE ⟨2, 4, 2, 5⟩ "f") []]]
      (by decide)⟩

set_option maxRecDepth 8192 in
/-- Claim C6 (counterexample): at a 61-line function (raw-line difference
60) the emitted NASA04 message carries the `NASA04: ` prefix, unlike the
claimed exact message. -/
theorem claim_c6_counterexample :
    analyze longFuncText (some longFuncTree) =
      Except.ok [{ range := { start := ⟨0, 4⟩, endPos := ⟨0, 5⟩ }
                   message := "Function 'f' longer than 60 lines (NASA04: No function longer than 60 lines)"
                   code := "NASA04" }] ∧
    "Function 'f' longer than 60 lines (NASA04: No function longer than 60 lines)" ≠
      "Function 'f' longer than 60 lines (No function longer than 60 lines)" :=
  ⟨rfl, by decide⟩

/-- Claim C6 (amended): for every function definition with raw-line
difference `end_lineno - lineno ≥ 60` the check block contains exactly one
NASA04 diagnostic anchored at the function-name range with message exactly
`Function '<name>' longer than 60 lines (NASA04: No function longer than 60
lines)`; at difference 59 (a 60-line function) it contains none — the
boundary is on the difference; and NASA04 diagnostics of a whole traversal
correspond one-to-one to function definitions with difference ≥ 60. -/
theorem claim_c6_amended :
    (∀ (lines : List String) (loc : Loc) (nm : String) (isA : Bool) (body : List Node),
      60 ≤ loc.end_lineno - loc.lineno →
      filterCode "NASA04" (checkFunction lines loc nm isA body) =
        [{ range := rangeForFuncName lines loc nm isA
           message := "Function '" ++ nm ++ "' longer than 60 lines (NASA04: No function longer than 60 lines)"
           code := "NASA04" }]) ∧
    (∀ (lines : List String) (loc : Loc) (nm : String) (isA : Bool) (body : List Node),
      loc.end_lineno - loc.lineno = 59 →
      countCode "NASA04" (checkFunction lines loc nm isA body) = 0) ∧
    (∀ (lines : List String) (n : Node),
      countCode "NASA04" (visitPre lines n) = walkCount isLongFuncNode n) := by
  refine ⟨?_, ?_, visitPre_count_nasa04⟩
  · intro lines loc nm isA body h
    rw [filterCode_checkFunction_nasa04, if_pos h]
  · intro lines loc nm isA body h
    rw [countCode_checkFunction_nasa04, if_neg (by omega)]

/-- Witness for C6 (amended) at a function spanning lines 1 to 61. -/
theorem claim_c6_amended_witness :
    60 ≤ (61 : Nat) - 1 ∧
    filterCode "NASA04" (checkFunction ["def f():"] ⟨1, 0, 61, 12⟩ "f" false []) =
      [{ range := { start := ⟨0, 4⟩, endPos := ⟨0, 5⟩ }
         message := "Function 'f' longer than 60 lines (NASA04: No function longer than 60 lines)"
         code := "NASA04" }] :=
  ⟨by decide,
    (claim_c6_amended.1 ["def f():"] ⟨1, 0, 61, 12⟩ "f" false [] (by decide)).trans
      (by rfl)⟩

/-- Claim C7 (counterexample): at `"while True:\n    pass"` the emitted
NASA02 message carries the `NASA02: ` prefix, unlike the claimed exact
message. -/
theorem claim_c7_counterexample :
    analyze "while True:\n    pass" (some whileTrueTree) =
      Except.ok [{ range := { start := ⟨0, 0⟩, endPos := ⟨1, 8⟩ }
                   message := "Unbounded loop 'while True' (NASA02: loops must be bounded)"
                   code := "NASA02" }] ∧
    "Unbounded loop 'while True' (NASA02: loops must be bounded)" ≠
      "Unbounded loop 'while True' (loops must be bounded)" :=
  ⟨rfl, by decide⟩

/-- Claim C7 (amended): a while-loop whose condition is the literal boolean
constant `True` yields exactly one NASA02 diagnostic covering the whole
loop construct, with message exactly `Unbounded loop 'while True' (NASA02:
loops must be bounded)`; a while-loop whose condition is a literal `False`
or any non-constant/non-true expression yields none, regardless of its
body; for-loops are never flagged by this rule; and NASA02 diagnostics of a
whole traversal correspond one-to-one to while-True loops. -/
theorem claim_c7_amended :
    (∀ (lines : List String) (loc tl : Loc) (b o : List Node),
      visitPre lines (Node.whileE loc (Node.boolConst tl true) b o) =
        { range := rangeForNode loc
          message := "Unbounded loop 'while True' (NASA02: loops must be bounded)"
          code := "NASA02" } :: (visitListPre lines b ++ visitListPre lines o)) ∧
    (∀ (lines : List String) (loc : Loc) (t : Node) (b o : List Node),
      isTrueConst t = false →
      visitPre lines (Node.whileE loc t b o) =
        visitPre lines t ++ visitListPre lines b ++ visitListPre lines o) ∧
    (∀ (lines : List String) (loc : Loc) (tg it : Node) (b o : List Node),
      visitPre lines (Node.forE loc tg it b o) =
        visitPre lines tg ++ visitPre lines it ++
          visitListPre lines b ++ visitListPre lines o) ∧
    (∀ (lines : List String) (n : Node),
      countCode "NASA02" (visitPre lines n) = walkCount isWhileTrueNode n) := by
  refine ⟨?_, ?_, ?_, visitPre_count_nasa02⟩
  · intro lines loc tl b o
    simp [visitPre, checkWhile]
  · intro lines loc t b o ht
    simp [visitPre, checkWhile_of_not_true loc t ht]
  · intro lines loc tg it b o
    simp [visitPre]

/-- Witness for C7 (amended) at `while False:\n    pass`. -/
theorem claim_c7_amended_witness :
    isTrueConst (Node.boolConst ⟨1, 6, 1, 11⟩ false) = false ∧
    visitPre [] (Node.whileE ⟨1, 0, 2, 8⟩ (Node.boolConst ⟨1, 6, 1, 11⟩ false)
      [Node.other ⟨2, 4, 2, 8⟩ []] []) = [] := by
  refine ⟨by decide, ?_⟩
  have h := claim_c7_amended.2.1 [] ⟨1, 0, 2, 8⟩ (Node.boolConst ⟨1, 6, 1, 11⟩ false)
    [Node.other ⟨2, 4, 2, 8⟩ []] [] (by decide)
  simpa [visitPre, visitListPre] using h

/-- Claim C8 (counterexample): at `"f = lambda: eval(0)"` the program's only
call sits inside a lambda body, yet the analyzer emits a NASA01-A
diagnostic for it — contradicting the claim that lambdas are never checked
by any rule even when their contents would otherwise violate one. -/
theorem claim_c8_counterexample :
    analyze "f = lambda: eval(0)" (some lambdaEvalTree) =
      Except.ok [{ range := { start := ⟨0, 12⟩, endPos := ⟨0, 16⟩ }
                   message := "Call to forbidden API 'eval' (NASA01: restricted subset)"
                   code := "NASA01-A" }] := rfl

/-- Claim C8 (amended): lambdas are never treated as function definitions —
the visitor appends no check block at a lambda node, so no rule ever
anchors a diagnostic to the lambda itself — but the traversal recurses into
lambda bodies, so expression-level rules do flag their contents (a
forbidden-API call inside a lambda body is reported by NASA01-A). -/
theorem claim_c8_amended :
    (∀ (lines : List String) (loc : Loc) (args : List Node) (b : Node),
      checksOf lines (Node.lambdaE loc args b) = [] ∧
      isFuncDefNode (Node.lambdaE loc args b) = false ∧
      visitPre lines (Node.lambdaE loc args b) =
        visitListPre lines args ++ visitPre lines b) ∧
    analyze "f = lambda: eval(0)" (some lambdaEvalTree) =
      Except.ok [{ range := { start := ⟨0, 12⟩, endPos := ⟨0, 16⟩ }
                   message := "Call to forbidden API 'eval' (NASA01: restricted subset)"
                   code := "NASA01-A" }] :=
  ⟨fun _ _ _ _ => ⟨rfl, rfl, rfl⟩, rfl⟩

/-- The whitespace skip never moves left. -/
theorem skipWsFrom_ge : ∀ (cs : List Char) (i : Nat), i ≤ skipWsFrom cs i
  | [], _ => Nat.le_refl _
  | c :: rest, i => by
      simp only [skipWsFrom]
      split
      · exact Nat.le_trans (Nat.le_succ i) (skipWsFrom_ge rest (i + 1))
      · exact Nat.le_refl _

/-- The whitespace skip stays within the scanned suffix. -/
theorem skipWsFrom_le : ∀ (cs : List Char) (i : Nat), skipWsFrom cs i ≤ i + cs.length
  | [], i => by simp [skipWsFrom]
  | c :: rest, i => by
      simp only [skipWsFrom, List.length_cons]
      split
      · have := skipWsFrom_le rest (i + 1)
        omega
      · omega

/-- Every position passed over by the whitespace skip holds a whitespace
character. -/
theorem skipWsFrom_skipped : ∀ (cs : List Char) (i j : Nat), i ≤ j →
    j < skipWsFrom cs i → ∃ c, cs[j - i]? = some c ∧ pyIsSpace c = true
  | [], i, j, hij, hj => absurd hj (by simp [skipWsFrom]; omega)
  | c :: rest, i, j, hij, hj => by
      simp only [skipWsFrom] at hj
      by_cases hc : pyIsSpace c = true
      · rw [if_pos hc] at hj
        by_cases hji : j = i
        · subst hji
          exact ⟨c, by simp, hc⟩
        · have hij' : i + 1 ≤ j := by omega
          obtain ⟨c', hget, hsp⟩ := skipWsFrom_skipped rest (i + 1) j hij' hj
          refine ⟨c', ?_, hsp⟩
          have hs : j - i = (j - (i + 1)) + 1 := by omega
          rw [hs, List.getElem?_cons_succ]
          exact hget
      · rw [if_neg hc] at hj
        omega

/-- The character at the stopping position of the whitespace skip is not
whitespace (when the stop lies inside the scanned suffix). -/
theorem skipWsFrom_stop : ∀ (cs : List Char) (i : Nat),
    skipWsFrom cs i < i + cs.length →
    ∃ c, cs[skipWsFrom cs i - i]? = some c ∧ pyIsSpace c = false
  | [], i, h => by simp [skipWsFrom] at h
  | c :: rest, i, h => by
      by_cases hc : pyIsSpace c = true
      · rw [skipWsFrom, if_pos hc] at h ⊢
        have hge := skipWsFrom_ge rest (i + 1)
        have h' : skipWsFrom rest (i + 1) < (i + 1) + rest.length := by
          simp only [List.length_cons] at h
          omega
        obtain ⟨c', hget, hsp⟩ := skipWsFrom_stop rest (i + 1) h'
        refine ⟨c', ?_, hsp⟩
        have hs : skipWsFrom rest (i + 1) - i = (skipWsFrom rest (i + 1) - (i + 1)) + 1 := by
          omega
        rw [hs, List.getElem?_cons_succ]
        exact hget
      · rw [skipWsFrom, if_neg hc]
        exact ⟨c, by simp, by simpa using hc⟩

/-- A successful substring scan returns a position at or after the start
index, with the needle a prefix of the suffix there. -/
theorem subFindAux_spec : ∀ (hay sub : List Char) (i j : Nat),
    subFindAux hay sub i = some j →
    i ≤ j ∧ sub.isPrefixOf (hay.drop (j - i)) = true
  | [], _, i, j, h => by simp [subFindAux] at h
  | c :: rest, sub, i, j, h => by
      rw [subFindAux] at h
      by_cases hp : sub.isPrefixOf (c :: rest) = true
      · rw [if_pos hp] at h
        obtain rfl : i = j := by injection h
        simpa [Nat.sub_self] using hp
      · rw [if_neg hp] at h
        obtain ⟨hij, hpre⟩ := subFindAux_spec rest sub (i + 1) j h
        refine ⟨by omega, ?_⟩
        have hs : j - i = (j - (i + 1)) + 1 := by omega
        rw [hs, List.drop_succ_cons]
        exact hpre

/-- A successful `str.find(sub, start)` lands at or after `start`, with the
needle a prefix of the string's suffix there. -/
theorem strFind_spec (s sub : String) (start j : Nat)
    (h : strFind s sub start = some j) :
    start ≤ j ∧ sub.toList.isPrefixOf (s.toList.drop j) = true := by
  obtain ⟨h1, h2⟩ := subFindAux_spec (s.toList.drop start) sub.toList start j h
  refine ⟨h1, ?_⟩
  rwa [List.drop_drop, Nat.add_sub_cancel' h1] at h2

/-- Claim C9 (confirmed): Function-Name Range Recovery satisfies its
contract.  When the definition's line index lies outside the available
source lines, the whole-node range is returned.  When the function keyword
(`async def` for async definitions, `def` otherwise) is not found on the
definition's source line at or after the node's column, the fallback range
starts at the node's column with width the name's length.  When the keyword
is found (at or after the node's column, with the keyword text a prefix of
the line there), the returned range starts at the first non-whitespace
character after the keyword — every passed-over character is whitespace and
the stopping character (if within the line) is not — and extends for the
name's character length.  For the input `"def foo():\n    pass"`, `analyze`
returns exactly one diagnostic, code NASA05, whose message contains
`0 assert(s)` and whose name-range start character is 4, the length of the
function keyword plus one space. -/
theorem claim_c9_name_range :
    (∀ (lines : List String) (loc : Loc) (nm : String) (isAsync : Bool),
      ¬(1 ≤ loc.lineno ∧ loc.lineno - 1 < lines.length) →
      rangeForFuncName lines loc nm isAsync = rangeForNode loc) ∧
    (∀ (lines : List String) (loc : Loc) (nm : String) (isAsync : Bool),
      (1 ≤ loc.lineno ∧ loc.lineno - 1 < lines.length) →
      strFind (lines.getD (loc.lineno - 1) "")
          (if isAsync then "async def" else "def") loc.col_offset = none →
      rangeForFuncName lines loc nm isAsync =
        { start := ⟨loc.lineno - 1, loc.col_offset⟩
          endPos := ⟨loc.lineno - 1, loc.col_offset + nm.length⟩ }) ∧
    (∀ (lines : List String) (loc : Loc) (nm : String) (isAsync : Bool) (idx : Nat),
      (1 ≤ loc.lineno ∧ loc.lineno - 1 < lines.length) →
      strFind (lines.getD (loc.lineno - 1) "")
          (if isAsync then "async def" else "def") loc.col_offset = some idx →
      loc.col_offset ≤ idx ∧
      ((if isAsync then "async def" else "def" : String).toList.isPrefixOf
        ((lines.getD (loc.lineno - 1) "").toList.drop idx)) = true ∧
      ∃ s,
        rangeForFuncName lines loc nm isAsync =
          { start := ⟨loc.lineno - 1, s⟩
            endPos := ⟨loc.lineno - 1, s + nm.length⟩ } ∧
        idx + (if isAsync then "async def" else "def" : String).length ≤ s ∧
        (∀ j, idx + (if isAsync then "async def" else "def" : String).length ≤ j →
          j < s →
          ∃ c, (lines.getD (loc.lineno - 1) "").toList[j]? = some c ∧
            pyIsSpace c = true) ∧
        (s < (lines.getD (loc.lineno - 1) "").length →
          ∃ c, (lines.getD (loc.lineno - 1) "").toList[s]? = some c ∧
            pyIsSpace c = false)) ∧
    (analyze "def foo():\n    pass" (some fooTree) =
      Except.ok [{ range := { start := ⟨0, 4⟩, endPos := ⟨0, 7⟩ }
                   message := "Function 'foo' has only 0 assert(s); expected at least 2 asserts (NASA05: use assertions to detect impossible conditions)"
                   code := "NASA05" }] ∧
     (4 : Nat) = "def".length + 1 ∧
     "Function 'foo' has only 0 assert(s); expected at least 2 asserts (NASA05: use assertions to detect impossible conditions)" =
       "Function 'foo' has only " ++ "0 assert(s)" ++
         "; expected at least 2 asserts (NASA05: use assertions to detect impossible conditions)") := by
  refine ⟨?_, ?_, ?_, rfl, by decide, by decide⟩
  · intro lines loc nm isAsync h
    simp only [rangeForFuncName]
    rw [if_neg h]
  · intro lines loc nm isAsync h hfind
    simp only [rangeForFuncName]
    rw [if_pos h, hfind]
    simp [pyPos]
  · intro lines loc nm isAsync idx h hfind
    obtain ⟨h1, h2⟩ := strFind_spec _ _ _ _ hfind
    refine ⟨h1, h2, ?_⟩
    set lineText := lines.getD (loc.lineno - 1) "" with hlt
    set kw : String := if isAsync then "async def" else "def" with hkw
    set k := idx + kw.length with hk
    refine ⟨skipWsFrom (lineText.toList.drop k) k, ?_, ?_, ?_, ?_⟩
    · simp only [rangeForFuncName]
      rw [if_pos h, hfind]
      rfl
    · exact skipWsFrom_ge _ _
    · intro j hjk hjs
      obtain ⟨c, hget, hsp⟩ := skipWsFrom_skipped (lineText.toList.drop k) k j hjk hjs
      refine ⟨c, ?_, hsp⟩
      rw [List.getElem?_drop, Nat.add_sub_cancel' hjk] at hget
      exact hget
    · intro hs
      have hlen : (lineText.toList.drop k).length = lineText.toList.length - k :=
        List.length_drop k lineText.toList
      have hsl : lineText.length = lineText.toList.length := rfl
      have hge := skipWsFrom_ge (lineText.toList.drop k) k
      have hklen : skipWsFrom (lineText.toList.drop k) k <
          k + (lineText.toList.drop k).length := by
        omega
      obtain ⟨c, hget, hsp⟩ := skipWsFrom_stop (lineText.toList.drop k) k hklen
      refine ⟨c, ?_, hsp⟩
      rw [List.getElem?_drop, Nat.add_sub_cancel' hge] at hget
      exact hget

/-- Witness for C9 at a line `"x"` on which the keyword is not found. -/
theorem claim_c9_name_range_witness :
    (1 ≤ (1 : Nat) ∧ (1 : Nat) - 1 < (["x"] : List String).length) ∧
    strFind ((["x"] : List String).getD 0 "") "def" 0 = none ∧
    rangeForFuncName ["x"] ⟨1, 0, 1, 1⟩ "f" false =
      { start := ⟨0, 0⟩, endPos := ⟨0, 1⟩ } := by
  refine ⟨⟨by decide, by decide⟩, by decide, ?_⟩
  have h := claim_c9_name_range.2.1 ["x"] ⟨1, 0, 1, 1⟩ "f" false
    ⟨by decide, by decide⟩ (by decide)
  exact h

/-- Claim C10 (confirmed): for every parsed input, the mutable-sink
traversal returns exactly the pre-order depth-first diagnostic sequence
(outer constructs before inner ones); and within one function-definition
node the check block decomposes as recursion diagnostics (NASA01-B), then
length diagnostics (NASA04), then assertion diagnostics (NASA05), all
placed before every diagnostic coming from nodes inside the definition. -/
theorem claim_c10_order :
    (∀ (text : String) (tree : Node), text ≠ "" →
      analyze text (some tree) = Except.ok (visitPre (pySplitlines text) tree)) ∧
    (∀ (lines : List String) (loc : Loc) (nm : String) (isA : Bool)
        (args body dec : List Node),
      ∃ l1 l2 l3,
        checkFunction lines loc nm isA body = l1 ++ l2 ++ l3 ∧
        (∀ d ∈ l1, d.code = "NASA01-B") ∧
        (∀ d ∈ l2, d.code = "NASA04") ∧
        (∀ d ∈ l3, d.code = "NASA05") ∧
        visitPre lines (Node.functionDef loc nm isA args body dec) =
          checkFunction lines loc nm isA body ++
            (visitListPre lines args ++ visitListPre lines body ++
              visitListPre lines dec)) := by
  constructor
  · intro text tree h
    simp [analyze, h, visitAcc_eq]
  · intro lines loc nm isA args body dec
    refine ⟨_, _, _, rfl, ?_, ?_, ?_, rfl⟩
    · intro d hd
      split at hd <;> simp_all
    · intro d hd
      split at hd <;> simp_all
    · intro d hd
      by_cases hc : bodyScanCount isAssertNode body < 2 <;> simp_all

/-- Witness for C10 at the input `"pass"`. -/
theorem claim_c10_order_witness :
    "pass" ≠ "" ∧
    analyze "pass" (some passTree) =
      Except.ok (visitPre (pySplitlines "pass") passTree) :=
  ⟨by decide, claim_c10_order.1 "pass" passTree (by decide)⟩

end NasaLsp
